import Mathlib

/-
Verification of the global-shortcut-to-event bridge in src/src-tauri/src/main.rs.

The core under verification is the single `main` function: a setup closure that
registers the global shortcut "CmdOrCtrl+Space" with a callback, where the
callback prints a line and broadcasts the "toggle-overlay" event with a unit
payload, unwrapping any error.  The host application-shell framework is an
external collaborator; its two capabilities (global-hotkey registration and
cross-window event broadcast) are modelled from the interface contract the
specification states for them.
-/

namespace Zeno

/-- Error returned by the global-shortcut registration facility of the host:
the chord is already bound, or the platform denies the permission. -/
inductive RegistrationError
  | alreadyRegistered
  | permissionDenied
deriving DecidableEq, Repr

/-- Error returned by the broadcast facility of the host: the application
handle has become invalid. -/
inductive BroadcastError
  | handleInvalid
deriving DecidableEq, Repr

/-- A notification delivered to one attached listener: the event name and the
payload (the payload of the "toggle-overlay" event is the unit value). -/
structure Notification where
  event : String
  payload : Unit
deriving DecidableEq, Repr

/-- A panic aborting the current thread of execution, as produced by calling
`unwrap` or `expect` on an `Err` value in the source. -/
structure Panic where
  message : String
deriving DecidableEq, Repr

/-- The message of the panic produced by `Result::unwrap` on an `Err` value. -/
def unwrapPanicMessage : String := "called Result::unwrap() on an Err value"

/-- The message passed to `.expect` at main.rs line 21. -/
def runExpectMessage : String := "error while running tauri application"

/-- The semantics of `Result::unwrap` from the source: return the `Ok` value,
or abort with a panic on an `Err` value. -/
def unwrapResult {e a : Type} (r : Except e a) : Except Panic a :=
  match r with
  | Except.ok v => Except.ok v
  | Except.error _ => Except.error { message := unwrapPanicMessage }

/-- The environment supplied by the host application-shell framework for one
process run: the outcome of the registration call, whether the application
handle captured by the callback is still valid at emit time, the number of
listeners attached to the window set at emit time, and whether the main run
loop terminates normally. -/
structure HostEnv where
  registerOutcome : Except RegistrationError Unit
  handleValid : Bool
  listeners : Nat
  runOk : Bool

/-- Modelled from the spec: the host capability
`emit_to_all_windows(event_name: string, payload: unit) -> Result<(), BroadcastError>`
of spec section 6.  It fails with a `BroadcastError` only if the application
handle has become invalid; otherwise it synchronously delivers the event to
each of the listeners currently attached (a no-op when zero listeners exist).
The returned list records the notifications delivered by the call. -/
def emit_all (host : HostEnv) (event : String) (payload : Unit) :
    Except BroadcastError (List Notification) :=
  if host.handleValid = true then
    Except.ok (List.replicate host.listeners { event := event, payload := payload })
  else
    Except.error BroadcastError.handleInvalid

/-- One syntactic action performed by the hotkey callback closure, transcribed
from main.rs lines 13 and 14: a `println!` call, or an `emit_all` call whose
result is unwrapped. -/
inductive CoreAction
  | printLine (s : String)
  | emitAllUnwrap (event : String) (payload : Unit)
deriving DecidableEq, Repr

/-- The body of the hotkey callback closure registered at main.rs line 12, as
the ordered list of the calls it performs (lines 13 and 14):
`println!("Global shortcut triggered!")` followed by
`app_handle.emit_all("toggle-overlay", ()).unwrap()`. -/
def callbackActions : List CoreAction :=
  [CoreAction.printLine "Global shortcut triggered!",
   CoreAction.emitAllUnwrap "toggle-overlay" ()]

/-- An observable side-effect step: a line written to stdout, or one
notification delivered to one attached listener. -/
inductive Step
  | print (s : String)
  | deliver (n : Notification)
deriving DecidableEq, Repr

/-- The lines printed in a trace, in order. -/
def stepPrints : List Step → List String
  | [] => []
  | Step.print s :: rest => s :: stepPrints rest
  | Step.deliver _ :: rest => stepPrints rest

/-- The notifications delivered in a trace, in order. -/
def stepDeliveries : List Step → List Notification
  | [] => []
  | Step.print _ :: rest => stepDeliveries rest
  | Step.deliver n :: rest => n :: stepDeliveries rest

/-- The semantics of one action of the callback body against the host: the
side-effect steps it produces and its outcome (`Except.error` is a panic
aborting the invocation, produced by `unwrap` on a failed emit). -/
def runAction (host : HostEnv) : CoreAction → List Step × Except Panic Unit
  | CoreAction.printLine s => ([Step.print s], Except.ok ())
  | CoreAction.emitAllUnwrap event payload =>
    match unwrapResult (emit_all host event payload) with
    | Except.ok notes => (notes.map Step.deliver, Except.ok ())
    | Except.error p => ([], Except.error p)

/-- Running a list of actions in order, aborting at the first panic (the steps
already produced persist). -/
def runActions (host : HostEnv) : List CoreAction → List Step × Except Panic Unit
  | [] => ([], Except.ok ())
  | a :: rest =>
    match runAction host a with
    | (steps, Except.ok ()) =>
      match runActions host rest with
      | (more, out) => (steps ++ more, out)
    | (steps, Except.error p) => (steps, Except.error p)

/-- One invocation of the hotkey callback (main.rs lines 12 to 15): the trace
of its side effects and its outcome.  The closure captures only the immutable
cloned application handle, so its semantics depend only on the host
environment. -/
def runCallback (host : HostEnv) : List Step × Except Panic Unit :=
  runActions host callbackActions

/-- The observable world accumulated across callback invocations: everything
printed to stdout and every notification delivered to a listener, in order. -/
structure World where
  stdout : List String
  delivered : List Notification
deriving DecidableEq, Repr

/-- Applying one side-effect step to the world. -/
def applyStep (w : World) : Step → World
  | Step.print s => { w with stdout := w.stdout ++ [s] }
  | Step.deliver n => { w with delivered := w.delivered ++ [n] }

/-- One firing of the registered hotkey: the host invokes the callback and its
side-effect steps are applied to the world. -/
def fireOnce (host : HostEnv) (w : World) : World :=
  (runCallback host).1.foldl applyStep w

/-- The world after the hotkey has fired a given number of times, starting
from the empty world.  Invocations are serialized by the host; the callback
closes over no mutable state, so each firing runs the same closure body. -/
def fireN (host : HostEnv) : Nat → World
  | 0 => { stdout := [], delivered := [] }
  | k + 1 => fireOnce host (fireN host k)

/-- The registration state of the shortcut registrar: unregistered (initial),
or registered with a chord. -/
inductive RegState
  | unregistered
  | registered (chord : String)
deriving DecidableEq, Repr

/-- An operation on the global-shortcut registrar. -/
inductive RegOp
  | registerOp (chord : String)
  | unregisterOp (chord : String)
deriving DecidableEq, Repr

/-- The transition function of the registrar state machine from spec section
4.1: registering from the unregistered state moves to registered; no
transition back to unregistered is defined (a second registration of the same
chord is a configuration error, not a runtime transition, and unregistration
is not exercised by this design). -/
def regStep : RegState → RegOp → RegState
  | RegState.unregistered, RegOp.registerOp c => RegState.registered c
  | RegState.registered c, RegOp.registerOp _ => RegState.registered c
  | s, RegOp.unregisterOp _ => s

/-- The accelerator string passed to the registration call at main.rs line
12. -/
def registeredChord : String := "CmdOrCtrl+Space"

/-- The registrar operations `main` issues over the whole process lifetime:
exactly the single register call of main.rs line 12, and no unregister
call. -/
def mainRegOps : List RegOp := [RegOp.registerOp registeredChord]

/-- The sequence of registrar states the process passes through, starting
unregistered and applying each operation of `main` in order. -/
def regTrace : List RegState := List.scanl regStep RegState.unregistered mainRegOps

/-- Whether an operation is a registration. -/
def isRegisterOp : RegOp → Bool
  | RegOp.registerOp _ => true
  | RegOp.unregisterOp _ => false

/-- Whether an operation is an unregistration. -/
def isUnregisterOp : RegOp → Bool
  | RegOp.registerOp _ => false
  | RegOp.unregisterOp _ => true

/-- A resolved key of the shortcut chord. -/
inductive Key
  | cmd
  | ctrl
  | space
deriving DecidableEq, Repr

/-- Splitting a character list into plus-separated tokens (the accelerator
syntax of the chord string). -/
def splitTokens : List Char → List Char → List (List Char)
  | [], cur => [cur.reverse]
  | c :: rest, cur =>
    if c = '+' then cur.reverse :: splitTokens rest []
    else splitTokens rest (c :: cur)

/-- The plus-separated tokens of a chord string. -/
def chordTokens (chord : String) : List String :=
  (splitTokens chord.toList []).map fun cs => String.mk cs

/-- Modelled from the spec: resolution of one accelerator token by the host,
per spec section 4.1 — the platform-neutral primary-modifier token
"CmdOrCtrl" resolves to Cmd on Apple platforms and to Ctrl on all other
platforms; "Space" is the space key. -/
def resolveToken (isApple : Bool) (tok : String) : Option Key :=
  if tok = "CmdOrCtrl" then some (if isApple = true then Key.cmd else Key.ctrl)
  else if tok = "Space" then some Key.space
  else none

/-- Modelled from the spec: resolution of a whole chord string on a platform,
token by token. -/
def resolveChord (isApple : Bool) (chord : String) : Option (List Key) :=
  (chordTokens chord).mapM (resolveToken isApple)

/-- The type the setup closure returns its error through (`Box<dyn Error>` in
the source, never actually constructed). -/
def SetupError : Type := String

/-- The result of a completed (non-panicking) run of the setup closure: the
registration state it leaves behind and the value it returns to the host. -/
structure SetupResult where
  regState : RegState
  setupReturn : Except SetupError Unit

/-- The setup closure of main.rs lines 8 to 18: it calls
`register("CmdOrCtrl+Space", callback)` and unwraps the result, so a
`RegistrationError` becomes a panic; on success the shortcut is registered and
the closure returns `Ok(())`. -/
def runSetup (host : HostEnv) : Except Panic SetupResult :=
  match unwrapResult host.registerOutcome with
  | Except.ok () =>
    Except.ok { regState := RegState.registered registeredChord,
                setupReturn := Except.ok () }
  | Except.error p => Except.error p

/-- The outcome of the whole process: normal shutdown (exit status 0) or a
panic abort (non-zero status). -/
inductive ProcessOutcome
  | exitedNormally
  | panicAbort (message : String)
deriving DecidableEq, Repr

/-- The observable result of one process run: its exit outcome, whether a
window was shown, and the final registration state. -/
structure ProcessRun where
  outcome : ProcessOutcome
  windowShown : Bool
  regState : RegState
deriving DecidableEq, Repr

/-- Modelled from the spec: the application shell run call of main.rs lines 19
to 21, with the framework behaviour of spec sections 4 and 6 — the setup
closure runs before any window is shown; a panic escaping setup aborts the
process with a non-zero status and no window; an error value returned by setup
makes the run call return that error, which `.expect` turns into a panic; on
successful setup the window is shown and the event loop runs, exiting with
status 0 on normal shutdown or panicking via `.expect` if the run itself
fails. -/
def runMain (host : HostEnv) : ProcessRun :=
  match runSetup host with
  | Except.error p =>
    { outcome := ProcessOutcome.panicAbort p.message,
      windowShown := false,
      regState := RegState.unregistered }
  | Except.ok s =>
    match s.setupReturn with
    | Except.error _ =>
      { outcome := ProcessOutcome.panicAbort runExpectMessage,
        windowShown := false,
        regState := s.regState }
    | Except.ok () =>
      if host.runOk = true then
        { outcome := ProcessOutcome.exitedNormally,
          windowShown := true,
          regState := s.regState }
      else
        { outcome := ProcessOutcome.panicAbort runExpectMessage,
          windowShown := true,
          regState := s.regState }

/-- The process entry point as a function of the command line: main.rs
declares `fn main()` and never reads the process arguments, so the behaviour
of the process does not depend on them. -/
def mainProcess (_argv : List String) (host : HostEnv) : ProcessRun :=
  runMain host

/-- A host environment in which everything succeeds, with three listeners
attached. -/
def hostOk : HostEnv :=
  { registerOutcome := Except.ok (), handleValid := true, listeners := 3, runOk := true }

/-- A host environment with no listeners attached. -/
def hostNoListeners : HostEnv :=
  { registerOutcome := Except.ok (), handleValid := true, listeners := 0, runOk := true }

/-- A host environment in which the application handle is invalid at emit
time, so the broadcast call fails. -/
def hostBadEmit : HostEnv :=
  { registerOutcome := Except.ok (), handleValid := false, listeners := 2, runOk := true }

/-- A host environment in which the registration call fails. -/
def hostBadReg : HostEnv :=
  { registerOutcome := Except.error RegistrationError.permissionDenied,
    handleValid := true, listeners := 1, runOk := true }

/-- The constant notification every broadcast delivers: the "toggle-overlay"
event with the unit payload. -/
def toggleNotification : Notification :=
  { event := "toggle-overlay", payload := () }

/-- Characterization of one callback invocation: it always prints first; on a
valid handle it then delivers the notification to every listener and returns
normally, and on an invalid handle it aborts with the unwrap panic after the
print. -/
theorem runCallback_eq (host : HostEnv) :
    runCallback host =
      if host.handleValid = true then
        (Step.print "Global shortcut triggered!" ::
           (List.replicate host.listeners toggleNotification).map Step.deliver,
         Except.ok ())
      else
        ([Step.print "Global shortcut triggered!"],
         Except.error { message := unwrapPanicMessage }) := by
  by_cases h : host.handleValid = true <;>
    simp [runCallback, callbackActions, runActions, runAction, emit_all, unwrapResult, h,
      toggleNotification]

/-- Extracting the deliveries of a pure delivery trace. -/
theorem stepDeliveries_replicate (k : Nat) (note : Notification) :
    stepDeliveries (List.replicate k (Step.deliver note)) = List.replicate k note := by
  induction k with
  | zero => rfl
  | succ k ih => simp [List.replicate_succ, stepDeliveries, ih]

/-- A pure delivery trace prints nothing. -/
theorem stepPrints_replicate (k : Nat) (note : Notification) :
    stepPrints (List.replicate k (Step.deliver note)) = [] := by
  induction k with
  | zero => rfl
  | succ k ih => simp [List.replicate_succ, stepPrints, ih]

/-- Folding a trace into the world appends exactly its prints to stdout and
exactly its deliveries to the delivered list. -/
theorem foldl_applyStep (t : List Step) (w : World) :
    t.foldl applyStep w =
      { stdout := w.stdout ++ stepPrints t,
        delivered := w.delivered ++ stepDeliveries t } := by
  induction t generalizing w with
  | nil => simp [stepPrints, stepDeliveries]
  | cons s rest ih =>
    cases s with
    | print m => simp [applyStep, ih, stepPrints, stepDeliveries]
    | deliver n => simp [applyStep, ih, stepPrints, stepDeliveries]

/-- C1: if the global-shortcut registration call fails with a
RegistrationError during setup, process startup aborts with a visible panic
(non-zero termination) and no window is shown; the process never reaches a
normal exit without the shortcut after a failed registration. -/
theorem claim_c1_registration_failure_fatal (host : HostEnv) (e : RegistrationError)
    (h : host.registerOutcome = Except.error e) :
    (runMain host).outcome = ProcessOutcome.panicAbort unwrapPanicMessage
    ∧ (runMain host).windowShown = false
    ∧ (runMain host).outcome ≠ ProcessOutcome.exitedNormally := by
  simp [runMain, runSetup, unwrapResult, h]

/-- C1 witness: a concrete host environment whose registration call fails. -/
theorem claim_c1_witness :
    (runMain hostBadReg).outcome = ProcessOutcome.panicAbort unwrapPanicMessage
    ∧ (runMain hostBadReg).windowShown = false
    ∧ (runMain hostBadReg).outcome ≠ ProcessOutcome.exitedNormally :=
  claim_c1_registration_failure_fatal hostBadReg RegistrationError.permissionDenied rfl

/-- C2: when the broadcast call inside the hotkey callback fails with a
BroadcastError, that callback invocation is aborted by the unwrap panic (the
failure is not swallowed: no normal return), while the process keeps running
and later invocations still execute (the stdout log keeps growing across
firings). -/
theorem claim_c2_broadcast_failure_fatal_to_invocation (host : HostEnv)
    (h : host.handleValid = false) :
    runCallback host =
      ([Step.print "Global shortcut triggered!"],
       Except.error { message := unwrapPanicMessage })
    ∧ ∀ k, (fireN host k).stdout = List.replicate k "Global shortcut triggered!" := by
  have hrc := runCallback_eq host
  simp [h] at hrc
  refine ⟨hrc, ?_⟩
  intro k
  induction k with
  | zero => rfl
  | succ k ih =>
    show ((runCallback host).1.foldl applyStep (fireN host k)).stdout = _
    rw [hrc, foldl_applyStep, ih]
    simp [stepPrints, List.replicate_succ']

/-- C2 witness: with an invalid handle the invocation panics after the print,
and two firings still produce two printed lines. -/
theorem claim_c2_witness :
    runCallback hostBadEmit =
      ([Step.print "Global shortcut triggered!"],
       Except.error { message := unwrapPanicMessage })
    ∧ (fireN hostBadEmit 2).stdout = List.replicate 2 "Global shortcut triggered!" :=
  ⟨(claim_c2_broadcast_failure_fatal_to_invocation hostBadEmit rfl).1,
   (claim_c2_broadcast_failure_fatal_to_invocation hostBadEmit rfl).2 2⟩

/-- C3: every notification ever delivered carries the exact event name
"toggle-overlay" and the empty (unit) payload, on every invocation regardless
of how many firings happened before; with a valid handle, k firings deliver
exactly k times the listener count of that same constant notification — no
payload mutation or accumulation across invocations. -/
theorem claim_c3_constant_event_payload (host : HostEnv) (k : Nat) :
    (∀ n ∈ (fireN host k).delivered, n = toggleNotification)
    ∧ (host.handleValid = true →
        (fireN host k).delivered =
          List.replicate (k * host.listeners) toggleNotification) := by
  by_cases hv : host.handleValid = true
  · have hrc := runCallback_eq host
    simp [hv] at hrc
    have hdel : (fireN host k).delivered =
        List.replicate (k * host.listeners) toggleNotification := by
      induction k with
      | zero => simp [fireN, Nat.zero_mul]
      | succ k ih =>
        show ((runCallback host).1.foldl applyStep (fireN host k)).delivered = _
        rw [hrc, foldl_applyStep, ih]
        have hmul : (k + 1) * host.listeners = k * host.listeners + host.listeners := by
          ring
        rw [hmul, List.replicate_add]
        simp [stepDeliveries, stepDeliveries_replicate]
    refine ⟨?_, fun _ => hdel⟩
    intro n hn
    rw [hdel] at hn
    exact List.eq_of_mem_replicate hn
  · have hrc := runCallback_eq host
    simp [hv] at hrc
    have hdel : (fireN host k).delivered = [] := by
      induction k with
      | zero => rfl
      | succ k ih =>
        show ((runCallback host).1.foldl applyStep (fireN host k)).delivered = []
        rw [hrc, foldl_applyStep, ih]
        simp [stepDeliveries]
    refine ⟨?_, fun hcontra => absurd hcontra hv⟩
    intro n hn
    rw [hdel] at hn
    simp at hn

/-- C3 witness: after two firings against a healthy host with three listeners
the delivered list is six copies of the constant toggle notification, and a
delivered member equals it. -/
theorem claim_c3_witness :
    toggleNotification = toggleNotification
    ∧ (fireN hostOk 2).delivered =
        List.replicate (2 * hostOk.listeners) toggleNotification :=
  ⟨(claim_c3_constant_event_payload hostOk 2).1 toggleNotification (by decide),
   (claim_c3_constant_event_payload hostOk 2).2 rfl⟩

/-- C4: the registrar state machine of the program takes exactly one
transition, from unregistered to registered with the chord, during setup; the
program issues exactly one register operation and no unregister operation over
the whole process lifetime, and from the registered state no operation leads
back to unregistered. -/
theorem claim_c4_single_registration_transition :
    regTrace = [RegState.unregistered, RegState.registered registeredChord]
    ∧ (mainRegOps.filter isRegisterOp).length = 1
    ∧ (mainRegOps.filter isUnregisterOp).length = 0
    ∧ ∀ c op, regStep (RegState.registered c) op = RegState.registered c := by
  refine ⟨by decide, by decide, by decide, ?_⟩
  intro c op
  cases op <;> rfl

/-- C5: the single registered chord is the platform-neutral accelerator
"CmdOrCtrl+Space", whose primary-modifier token resolves to Cmd on Apple
platforms and Ctrl elsewhere, together with the Space key; and the registered
callback returns no value — its only normal outcome is unit, any other
termination being a panic. -/
theorem claim_c5_chord_descriptor :
    registeredChord = "CmdOrCtrl+Space"
    ∧ resolveChord true registeredChord = some [Key.cmd, Key.space]
    ∧ resolveChord false registeredChord = some [Key.ctrl, Key.space]
    ∧ ∀ host, (runCallback host).2 = Except.ok () ∨
        (runCallback host).2 = Except.error { message := unwrapPanicMessage } := by
  refine ⟨rfl, by decide, by decide, ?_⟩
  intro host
  by_cases hv : host.handleValid = true
  · left
    have hrc := runCallback_eq host
    simp [hv] at hrc
    rw [hrc]
  · right
    have hrc := runCallback_eq host
    simp [hv] at hrc
    rw [hrc]

/-- C6: the callback body consists of exactly two actions in order — one
string print and one broadcast call — and nothing else; each invocation only
appends its own trace to the world, a trace determined by the host environment
alone, so no state shared between invocations is mutated. -/
theorem claim_c6_callback_two_actions (host : HostEnv) (w : World) :
    callbackActions =
      [CoreAction.printLine "Global shortcut triggered!",
       CoreAction.emitAllUnwrap "toggle-overlay" ()]
    ∧ callbackActions.length = 2
    ∧ (fireOnce host w).stdout = w.stdout ++ stepPrints (runCallback host).1
    ∧ (fireOnce host w).delivered = w.delivered ++ stepDeliveries (runCallback host).1 := by
  refine ⟨rfl, rfl, ?_, ?_⟩ <;> simp [fireOnce, foldl_applyStep]

/-- C7: with a valid handle, one callback invocation delivers exactly one
notification per attached listener, each carrying "toggle-overlay" with the
empty payload, and the invocation returns normally; with zero listeners the
invocation is a no-op beyond the print, with no error. -/
theorem claim_c7_broadcast_fan_out (host : HostEnv) (h : host.handleValid = true) :
    stepDeliveries (runCallback host).1 =
      List.replicate host.listeners toggleNotification
    ∧ (stepDeliveries (runCallback host).1).length = host.listeners
    ∧ (runCallback host).2 = Except.ok ()
    ∧ (host.listeners = 0 →
        (runCallback host).1 = [Step.print "Global shortcut triggered!"]) := by
  have hrc := runCallback_eq host
  simp [h] at hrc
  rw [hrc]
  refine ⟨?_, ?_, rfl, ?_⟩
  · simp [stepDeliveries, stepDeliveries_replicate]
  · simp [stepDeliveries, stepDeliveries_replicate]
  · intro h0
    simp [h0]

/-- C7 witness: a healthy host with zero listeners — the broadcast succeeds as
a no-op delivering zero notifications. -/
theorem claim_c7_witness :
    stepDeliveries (runCallback hostNoListeners).1 =
      List.replicate hostNoListeners.listeners toggleNotification
    ∧ (stepDeliveries (runCallback hostNoListeners).1).length = hostNoListeners.listeners
    ∧ (runCallback hostNoListeners).2 = Except.ok ()
    ∧ (runCallback hostNoListeners).1 = [Step.print "Global shortcut triggered!"] :=
  ⟨(claim_c7_broadcast_fan_out hostNoListeners rfl).1,
   (claim_c7_broadcast_fan_out hostNoListeners rfl).2.1,
   (claim_c7_broadcast_fan_out hostNoListeners rfl).2.2.1,
   (claim_c7_broadcast_fan_out hostNoListeners rfl).2.2.2 rfl⟩

/-- C8: the process behaviour does not depend on the command line (no flags or
subcommands), and the exit contract is: status 0 exactly when registration
succeeded and the run loop shut down normally, a non-zero panic abort in every
other case (failed registration or failed application run). -/
theorem claim_c8_exit_code_contract (argv1 argv2 : List String) (host : HostEnv) :
    mainProcess argv1 host = mainProcess argv2 host
    ∧ ((runMain host).outcome = ProcessOutcome.exitedNormally ↔
        host.registerOutcome = Except.ok () ∧ host.runOk = true) := by
  refine ⟨rfl, ?_⟩
  rcases host with ⟨ro, hv, n, rok⟩
  cases ro with
  | ok u =>
    cases u
    cases rok <;> simp [runMain, runSetup, unwrapResult]
  | error e =>
    simp [runMain, runSetup, unwrapResult]

/-- C8 witness: a concrete healthy host with two different argument vectors. -/
theorem claim_c8_witness :
    mainProcess [] hostOk = mainProcess ["--flag"] hostOk
    ∧ ((runMain hostOk).outcome = ProcessOutcome.exitedNormally ↔
        hostOk.registerOutcome = Except.ok () ∧ hostOk.runOk = true) :=
  claim_c8_exit_code_contract [] ["--flag"] hostOk

/-- C9: in every callback invocation the stdout print is the first side
effect, before any delivery, and each invocation prints exactly once; when the
broadcast fails the trace is exactly the print followed by the panic, so the
print side effect persists — a failing invocation is not atomic. -/
theorem claim_c9_print_precedes_broadcast (host : HostEnv) :
    (runCallback host).1.head? = some (Step.print "Global shortcut triggered!")
    ∧ stepPrints (runCallback host).1 = ["Global shortcut triggered!"]
    ∧ (host.handleValid = false →
        (runCallback host).1 = [Step.print "Global shortcut triggered!"]
        ∧ (runCallback host).2 = Except.error { message := unwrapPanicMessage }) := by
  by_cases hv : host.handleValid = true
  · have hrc := runCallback_eq host
    simp [hv] at hrc
    rw [hrc]
    refine ⟨rfl, ?_, ?_⟩
    · simp [stepPrints, stepPrints_replicate]
    · intro hfalse
      simp [hv] at hfalse
  · have hrc := runCallback_eq host
    simp [hv] at hrc
    rw [hrc]
    exact ⟨rfl, rfl, fun _ => ⟨rfl, rfl⟩⟩

/-- C9 witness: with an invalid handle the print has already happened when the
broadcast fails. -/
theorem claim_c9_witness :
    (runCallback hostBadEmit).1.head? = some (Step.print "Global shortcut triggered!")
    ∧ (runCallback hostBadEmit).1 = [Step.print "Global shortcut triggered!"]
    ∧ (runCallback hostBadEmit).2 = Except.error { message := unwrapPanicMessage } :=
  ⟨(claim_c9_print_precedes_broadcast hostBadEmit).1,
   ((claim_c9_print_precedes_broadcast hostBadEmit).2.2 rfl).1,
   ((claim_c9_print_precedes_broadcast hostBadEmit).2.2 rfl).2⟩

/-- C10: whenever the setup closure completes without panicking it returns
exactly `Ok(())` — no RegistrationError or BroadcastError value is ever
returned as data; a failed registration surfaces only as the unwrap panic, and
the run-error panic of the host can only come from a failed run, never from a
setup-returned error (that return path is unreachable). -/
theorem claim_c10_setup_returns_ok (host : HostEnv) :
    (∀ s, runSetup host = Except.ok s → s.setupReturn = Except.ok ())
    ∧ (∀ e, host.registerOutcome = Except.error e →
        runSetup host = Except.error { message := unwrapPanicMessage })
    ∧ ((runMain host).outcome = ProcessOutcome.panicAbort runExpectMessage →
        host.runOk = false) := by
  rcases host with ⟨ro, hv, n, rok⟩
  cases ro with
  | ok u =>
    cases u
    refine ⟨?_, ?_, ?_⟩
    · intro s hs
      simp [runSetup, unwrapResult] at hs
      subst hs
      rfl
    · intro e he
      simp at he
    · cases rok <;> simp [runMain, runSetup, unwrapResult]
  | error e2 =>
    refine ⟨?_, ?_, ?_⟩
    · intro s hs
      simp [runSetup, unwrapResult] at hs
    · intro e he
      simp [runSetup, unwrapResult]
    · intro hout
      simp [runMain, runSetup, unwrapResult] at hout
      exact absurd hout (by decide)

/-- C10 witness: a successful setup returns the Ok unit value, and a failed
registration makes setup panic rather than return an error value. -/
theorem claim_c10_witness :
    SetupResult.setupReturn
        { regState := RegState.registered registeredChord, setupReturn := Except.ok () } =
      Except.ok ()
    ∧ runSetup hostBadReg = Except.error { message := unwrapPanicMessage } :=
  ⟨(claim_c10_setup_returns_ok hostOk).1
      { regState := RegState.registered registeredChord, setupReturn := Except.ok () } rfl,
   (claim_c10_setup_returns_ok hostBadReg).2.1 RegistrationError.permissionDenied rfl⟩

end Zeno
